import Mathlib

/-!
Verification of the QoS profile module of rclpy (`rclpy/qos.py`).

The Python source is shallowly embedded: policy enumerations become inductive
types carrying their integer values, `QoSProfile` becomes a structure, the
validating property setters become functions returning `Option`/pairs with a
warning list, and the constructor becomes a function into `Except`.  The
native `_rclpy` backend (default-profile dictionaries and the low-level
compatibility primitive) is not part of the Python source; where a statement
depends on it, the missing part is modelled from the specification and marked
as such in its doc comment.
-/

/-- Policy enumeration `HistoryPolicy` (rclpy/qos.py): members
SYSTEM_DEFAULT = 0, KEEP_LAST = 1, KEEP_ALL = 2, UNKNOWN = 3. -/
inductive HistoryPolicy where
  | SYSTEM_DEFAULT
  | KEEP_LAST
  | KEEP_ALL
  | UNKNOWN
deriving DecidableEq, Repr

/-- Integer value of each `HistoryPolicy` member, as declared in the source. -/
def HistoryPolicy.value : HistoryPolicy → Int
  | .SYSTEM_DEFAULT => 0
  | .KEEP_LAST => 1
  | .KEEP_ALL => 2
  | .UNKNOWN => 3

/-- Python member name of each `HistoryPolicy` member. -/
def HistoryPolicy.pyName : HistoryPolicy → String
  | .SYSTEM_DEFAULT => "SYSTEM_DEFAULT"
  | .KEEP_LAST => "KEEP_LAST"
  | .KEEP_ALL => "KEEP_ALL"
  | .UNKNOWN => "UNKNOWN"

/-- `QoSHistoryPolicy(value)`: the Python enum constructor looks up the member
with the given integer value and raises `ValueError` (here: `none`) when no
member has that value. -/
def HistoryPolicy.ofInt (v : Int) : Option HistoryPolicy :=
  if v = 0 then some .SYSTEM_DEFAULT
  else if v = 1 then some .KEEP_LAST
  else if v = 2 then some .KEEP_ALL
  else if v = 3 then some .UNKNOWN
  else none

/-- Members of `HistoryPolicy` in declaration order (Python `__members__`;
the deprecated `RMW_...` aliases are class attributes added by a decorator,
not enum members, so they do not appear here). -/
def HistoryPolicy.members : List HistoryPolicy :=
  [.SYSTEM_DEFAULT, .KEEP_LAST, .KEEP_ALL, .UNKNOWN]

/-- Policy enumeration `ReliabilityPolicy` (rclpy/qos.py): members
SYSTEM_DEFAULT = 0, RELIABLE = 1, BEST_EFFORT = 2, UNKNOWN = 3,
BEST_AVAILABLE = 4. -/
inductive ReliabilityPolicy where
  | SYSTEM_DEFAULT
  | RELIABLE
  | BEST_EFFORT
  | UNKNOWN
  | BEST_AVAILABLE
deriving DecidableEq, Repr

/-- Integer value of each `ReliabilityPolicy` member, as declared in the source. -/
def ReliabilityPolicy.value : ReliabilityPolicy → Int
  | .SYSTEM_DEFAULT => 0
  | .RELIABLE => 1
  | .BEST_EFFORT => 2
  | .UNKNOWN => 3
  | .BEST_AVAILABLE => 4

/-- Python member name of each `ReliabilityPolicy` member. -/
def ReliabilityPolicy.pyName : ReliabilityPolicy → String
  | .SYSTEM_DEFAULT => "SYSTEM_DEFAULT"
  | .RELIABLE => "RELIABLE"
  | .BEST_EFFORT => "BEST_EFFORT"
  | .UNKNOWN => "UNKNOWN"
  | .BEST_AVAILABLE => "BEST_AVAILABLE"

/-- `QoSReliabilityPolicy(value)`: Python enum value lookup, `ValueError`
(`none`) when no member has the value. -/
def ReliabilityPolicy.ofInt (v : Int) : Option ReliabilityPolicy :=
  if v = 0 then some .SYSTEM_DEFAULT
  else if v = 1 then some .RELIABLE
  else if v = 2 then some .BEST_EFFORT
  else if v = 3 then some .UNKNOWN
  else if v = 4 then some .BEST_AVAILABLE
  else none

/-- Members of `ReliabilityPolicy` in declaration order. -/
def ReliabilityPolicy.members : List ReliabilityPolicy :=
  [.SYSTEM_DEFAULT, .RELIABLE, .BEST_EFFORT, .UNKNOWN, .BEST_AVAILABLE]

/-- Policy enumeration `DurabilityPolicy` (rclpy/qos.py): members
SYSTEM_DEFAULT = 0, TRANSIENT_LOCAL = 1, VOLATILE = 2, UNKNOWN = 3,
BEST_AVAILABLE = 4. -/
inductive DurabilityPolicy where
  | SYSTEM_DEFAULT
  | TRANSIENT_LOCAL
  | VOLATILE
  | UNKNOWN
  | BEST_AVAILABLE
deriving DecidableEq, Repr

/-- Integer value of each `DurabilityPolicy` member, as declared in the source. -/
def DurabilityPolicy.value : DurabilityPolicy → Int
  | .SYSTEM_DEFAULT => 0
  | .TRANSIENT_LOCAL => 1
  | .VOLATILE => 2
  | .UNKNOWN => 3
  | .BEST_AVAILABLE => 4

/-- Python member name of each `DurabilityPolicy` member. -/
def DurabilityPolicy.pyName : DurabilityPolicy → String
  | .SYSTEM_DEFAULT => "SYSTEM_DEFAULT"
  | .TRANSIENT_LOCAL => "TRANSIENT_LOCAL"
  | .VOLATILE => "VOLATILE"
  | .UNKNOWN => "UNKNOWN"
  | .BEST_AVAILABLE => "BEST_AVAILABLE"

/-- `QoSDurabilityPolicy(value)`: Python enum value lookup, `ValueError`
(`none`) when no member has the value. -/
def DurabilityPolicy.ofInt (v : Int) : Option DurabilityPolicy :=
  if v = 0 then some .SYSTEM_DEFAULT
  else if v = 1 then some .TRANSIENT_LOCAL
  else if v = 2 then some .VOLATILE
  else if v = 3 then some .UNKNOWN
  else if v = 4 then some .BEST_AVAILABLE
  else none

/-- Members of `DurabilityPolicy` in declaration order. -/
def DurabilityPolicy.members : List DurabilityPolicy :=
  [.SYSTEM_DEFAULT, .TRANSIENT_LOCAL, .VOLATILE, .UNKNOWN, .BEST_AVAILABLE]

/-- Policy enumeration `LivelinessPolicy` (rclpy/qos.py): members
SYSTEM_DEFAULT = 0, AUTOMATIC = 1, MANUAL_BY_TOPIC = 3, UNKNOWN = 4,
BEST_AVAILABLE = 5 (there is no member with value 2). -/
inductive LivelinessPolicy where
  | SYSTEM_DEFAULT
  | AUTOMATIC
  | MANUAL_BY_TOPIC
  | UNKNOWN
  | BEST_AVAILABLE
deriving DecidableEq, Repr

/-- Integer value of each `LivelinessPolicy` member, as declared in the source. -/
def LivelinessPolicy.value : LivelinessPolicy → Int
  | .SYSTEM_DEFAULT => 0
  | .AUTOMATIC => 1
  | .MANUAL_BY_TOPIC => 3
  | .UNKNOWN => 4
  | .BEST_AVAILABLE => 5

/-- Python member name of each `LivelinessPolicy` member. -/
def LivelinessPolicy.pyName : LivelinessPolicy → String
  | .SYSTEM_DEFAULT => "SYSTEM_DEFAULT"
  | .AUTOMATIC => "AUTOMATIC"
  | .MANUAL_BY_TOPIC => "MANUAL_BY_TOPIC"
  | .UNKNOWN => "UNKNOWN"
  | .BEST_AVAILABLE => "BEST_AVAILABLE"

/-- `QoSLivelinessPolicy(value)`: Python enum value lookup, `ValueError`
(`none`) when no member has the value (in particular at 2). -/
def LivelinessPolicy.ofInt (v : Int) : Option LivelinessPolicy :=
  if v = 0 then some .SYSTEM_DEFAULT
  else if v = 1 then some .AUTOMATIC
  else if v = 3 then some .MANUAL_BY_TOPIC
  else if v = 4 then some .UNKNOWN
  else if v = 5 then some .BEST_AVAILABLE
  else none

/-- Members of `LivelinessPolicy` in declaration order. -/
def LivelinessPolicy.members : List LivelinessPolicy :=
  [.SYSTEM_DEFAULT, .AUTOMATIC, .MANUAL_BY_TOPIC, .UNKNOWN, .BEST_AVAILABLE]

/-- `rclpy.duration.Duration`: a nanosecond-resolution time interval
(external value type, consumed by qos.py). -/
structure Duration where
  nanoseconds : Int
deriving DecidableEq, Repr

/-- The `QoSProfile` aggregate (rclpy/qos.py): nine fields backed by private
slots.  The enumeration-typed fields hold enumeration members because every
write goes through a setter that converts via the enum constructor. -/
structure QoSProfile where
  history : HistoryPolicy
  depth : Int
  reliability : ReliabilityPolicy
  durability : DurabilityPolicy
  lifespan : Duration
  deadline : Duration
  liveliness : LivelinessPolicy
  liveliness_lease_duration : Duration
  avoid_ros_namespace_conventions : Bool
deriving DecidableEq, Repr

/-- The warning text issued by the `depth` setter when history is KEEP_LAST
and the assigned depth is 0 (rclpy/qos.py, `warnings.warn`; punctuation
normalised). -/
def zeroDepthWarning : String :=
  "A zero depth with KEEP_LAST does not make sense; no data could be stored. This will be interpreted as SYSTEM_DEFAULT"

/-- The `history` property setter: accepts an enum member or a plain int
(both are ints, since the policies are IntEnums) and stores
`QoSHistoryPolicy(value)`; an int that is no member's value raises
`ValueError` (`none`). -/
def QoSProfile.setHistory (p : QoSProfile) (v : Int) : Option QoSProfile :=
  (HistoryPolicy.ofInt v).map fun h => { p with history := h }

/-- The `reliability` property setter: stores `QoSReliabilityPolicy(value)`;
`ValueError` (`none`) on a non-member int. -/
def QoSProfile.setReliability (p : QoSProfile) (v : Int) : Option QoSProfile :=
  (ReliabilityPolicy.ofInt v).map fun r => { p with reliability := r }

/-- The `durability` property setter: stores `QoSDurabilityPolicy(value)`;
`ValueError` (`none`) on a non-member int. -/
def QoSProfile.setDurability (p : QoSProfile) (v : Int) : Option QoSProfile :=
  (DurabilityPolicy.ofInt v).map fun d => { p with durability := d }

/-- The `liveliness` property setter: stores `QoSLivelinessPolicy(value)`;
`ValueError` (`none`) on a non-member int. -/
def QoSProfile.setLiveliness (p : QoSProfile) (v : Int) : Option QoSProfile :=
  (LivelinessPolicy.ofInt v).map fun l => { p with liveliness := l }

/-- The `depth` property setter (rclpy/qos.py lines 172-181): after the
`isinstance(value, int)` assertion (captured by the `Int` type of `v`) it
warns when the current history is KEEP_LAST and the value is 0, then stores
the value unconditionally — there is no range check, so any integer
(including a negative one) is stored.  Returns the updated profile together
with the list of warnings issued. -/
def QoSProfile.setDepth (p : QoSProfile) (v : Int) : QoSProfile × List String :=
  ({ p with depth := v },
   if p.history = HistoryPolicy.KEEP_LAST ∧ v = 0 then [zeroDepthWarning] else [])

/-- Errors raised by `QoSProfile` construction: the module's own
`InvalidQoSProfileException` (with the message passed at the raise site) or
a `ValueError` escaping from an enum-constructor conversion in a setter. -/
inductive QoSError where
  | invalidProfile (message : String)
  | valueError
deriving DecidableEq, Repr

/-- The contents of the backend default dictionary
`_rclpy.rmw_qos_profile_t.predefined(qos_profile_default).to_dict()` that
`QoSProfile.__init__` reads.  The values live in the native `_rclpy` module
(not in the Python source), so the dictionary is kept abstract: constructions
are parameterised over it, which is exactly what the specification's
"single source of truth" phrasing requires. -/
structure QoSDefaultDict where
  depth : Int
  reliability : Int
  durability : Int
  lifespan : Duration
  deadline : Duration
  liveliness : Int
  liveliness_lease_duration : Duration
  avoid_ros_namespace_conventions : Bool
deriving DecidableEq, Repr

/-- The enum-valued entries of a default dictionary are well formed: each is
the value of some member of the corresponding policy enumeration (true of
every dictionary the backend can produce). -/
def QoSDefaultDict.valid (d : QoSDefaultDict) : Prop :=
  (ReliabilityPolicy.ofInt d.reliability).isSome = true ∧
  (DurabilityPolicy.ofInt d.durability).isSome = true ∧
  (LivelinessPolicy.ofInt d.liveliness).isSome = true

/-- A concrete sample default dictionary (the values of the rmw
`qos_profile_default`: KEEP_LAST/10, RELIABLE, VOLATILE, zero durations,
SYSTEM_DEFAULT liveliness), used only to instantiate witnesses. -/
def sampleDefaultDict : QoSDefaultDict :=
  { depth := 10, reliability := 1, durability := 2,
    lifespan := ⟨0⟩, deadline := ⟨0⟩, liveliness := 0,
    liveliness_lease_duration := ⟨0⟩,
    avoid_ros_namespace_conventions := false }

/-- `QoSProfile.__init__` (rclpy/qos.py lines 76-119), step for step:
raise `InvalidQoSProfileException` when history and depth are both omitted;
an omitted history with a given depth becomes KEEP_LAST (value 1); the
history argument goes through the history setter (enum conversion); raise
`InvalidQoSProfileException` when the converted history is KEEP_LAST and
depth is omitted; every remaining omitted argument is filled from the
backend default dictionary `d`; the depth setter's zero-depth warning is
collected; enum conversions that fail raise `ValueError`.  On success the
profile and the warnings issued are returned. -/
def constructQoSProfile (d : QoSDefaultDict)
    (history depth reliability durability : Option Int)
    (lifespan deadline : Option Duration) (liveliness : Option Int)
    (liveliness_lease_duration : Option Duration)
    (avoid_ros_namespace_conventions : Option Bool) :
    Except QoSError (QoSProfile × List String) :=
  if history = none ∧ depth = none then
    .error (.invalidProfile "History and/or depth settings are required.")
  else
    match HistoryPolicy.ofInt (history.getD 1) with
    | none => .error .valueError
    | some hpol =>
      if hpol = HistoryPolicy.KEEP_LAST ∧ depth = none then
        .error (.invalidProfile "History set to KEEP_LAST without a depth setting.")
      else
        match ReliabilityPolicy.ofInt (reliability.getD d.reliability),
              DurabilityPolicy.ofInt (durability.getD d.durability),
              LivelinessPolicy.ofInt (liveliness.getD d.liveliness) with
        | some rpol, some dupol, some lpol =>
          let dv := depth.getD d.depth
          .ok ({ history := hpol, depth := dv, reliability := rpol,
                 durability := dupol,
                 lifespan := lifespan.getD d.lifespan,
                 deadline := deadline.getD d.deadline,
                 liveliness := lpol,
                 liveliness_lease_duration :=
                   liveliness_lease_duration.getD d.liveliness_lease_duration,
                 avoid_ros_namespace_conventions :=
                   avoid_ros_namespace_conventions.getD d.avoid_ros_namespace_conventions },
               if hpol = HistoryPolicy.KEEP_LAST ∧ dv = 0 then [zeroDepthWarning] else [])
        | _, _, _ => .error .valueError

/-- An optional integer argument is in range for an enum conversion `f`:
whenever it is supplied, the conversion succeeds. -/
def optInRange {α : Type} (f : Int → Option α) (o : Option Int) : Prop :=
  ∀ v, o = some v → (f v).isSome = true

/-- `QoSProfile.__eq__` (rclpy/qos.py lines 266-271) between two profiles:
`all` of the nine slot comparisons (the `isinstance` guard is captured by
the argument type). -/
def QoSProfile.pyEq (p q : QoSProfile) : Bool :=
  decide (p.history = q.history) && decide (p.depth = q.depth) &&
  decide (p.reliability = q.reliability) && decide (p.durability = q.durability) &&
  decide (p.lifespan = q.lifespan) && decide (p.deadline = q.deadline) &&
  decide (p.liveliness = q.liveliness) &&
  decide (p.liveliness_lease_duration = q.liveliness_lease_duration) &&
  decide (p.avoid_ros_namespace_conventions = q.avoid_ros_namespace_conventions)

/-- Python `str.lower()` on the ASCII member names used here. -/
def lowerStr (s : String) : String := String.mk (s.data.map Char.toLower)

/-- Python `str.upper()` on the ASCII strings used here. -/
def upperStr (s : String) : String := String.mk (s.data.map Char.toUpper)

/-- Python `name.startswith(RMW)`: the reserved legacy prefix test used by
`QoSPolicyEnum.short_keys`. -/
def startsWithRMW (s : String) : Bool :=
  match s.data with
  | 'R' :: 'M' :: 'W' :: _ => true
  | _ => false

/-- Name-to-value lookup in a member table, first match by exact name
(Python `cls[name]`; `none` models the `KeyError`). -/
def lookupMember : List (String × Int) → String → Option Int
  | [], _ => none
  | (k, v) :: rest, n => if k = n then some v else lookupMember rest n

/-- `__members__` of `HistoryPolicy` as a name/value table in declaration
order. -/
def HistoryPolicy.memberTable : List (String × Int) :=
  HistoryPolicy.members.map fun m => (m.pyName, m.value)

/-- `QoSPolicyEnum.short_keys` for `HistoryPolicy` (rclpy/qos.py lines
286-289): lower-cased names of the members whose name does not start with
RMW. -/
def HistoryPolicy.short_keys : List String :=
  (HistoryPolicy.memberTable.filter fun kv => !(startsWithRMW kv.1)).map
    fun kv => lowerStr kv.1

/-- `QoSPolicyEnum.get_from_short_key` for `HistoryPolicy` (rclpy/qos.py
lines 291-294): case-insensitive lookup `cls[name.upper()].value`. -/
def HistoryPolicy.get_from_short_key (name : String) : Option Int :=
  lookupMember HistoryPolicy.memberTable (upperStr name)

/-- `__members__` of `ReliabilityPolicy` as a name/value table. -/
def ReliabilityPolicy.memberTable : List (String × Int) :=
  ReliabilityPolicy.members.map fun m => (m.pyName, m.value)

/-- `short_keys` for `ReliabilityPolicy`. -/
def ReliabilityPolicy.short_keys : List String :=
  (ReliabilityPolicy.memberTable.filter fun kv => !(startsWithRMW kv.1)).map
    fun kv => lowerStr kv.1

/-- `get_from_short_key` for `ReliabilityPolicy`. -/
def ReliabilityPolicy.get_from_short_key (name : String) : Option Int :=
  lookupMember ReliabilityPolicy.memberTable (upperStr name)

/-- `__members__` of `DurabilityPolicy` as a name/value table. -/
def DurabilityPolicy.memberTable : List (String × Int) :=
  DurabilityPolicy.members.map fun m => (m.pyName, m.value)

/-- `short_keys` for `DurabilityPolicy`. -/
def DurabilityPolicy.short_keys : List String :=
  (DurabilityPolicy.memberTable.filter fun kv => !(startsWithRMW kv.1)).map
    fun kv => lowerStr kv.1

/-- `get_from_short_key` for `DurabilityPolicy`. -/
def DurabilityPolicy.get_from_short_key (name : String) : Option Int :=
  lookupMember DurabilityPolicy.memberTable (upperStr name)

/-- `__members__` of `LivelinessPolicy` as a name/value table. -/
def LivelinessPolicy.memberTable : List (String × Int) :=
  LivelinessPolicy.members.map fun m => (m.pyName, m.value)

/-- `short_keys` for `LivelinessPolicy`. -/
def LivelinessPolicy.short_keys : List String :=
  (LivelinessPolicy.memberTable.filter fun kv => !(startsWithRMW kv.1)).map
    fun kv => lowerStr kv.1

/-- `get_from_short_key` for `LivelinessPolicy`. -/
def LivelinessPolicy.get_from_short_key (name : String) : Option Int :=
  lookupMember LivelinessPolicy.memberTable (upperStr name)

/-- A CPython exception object as observable after `raise`: its `args`
tuple.  `str(e)` is `args[0]` when `args` has exactly one element, the empty
string when `args` is empty, and the tuple display otherwise (collapsed here
to joining the parts, which the claims never reach). -/
structure PyExceptionObj where
  args : List String
deriving DecidableEq, Repr

/-- Python `str(e)` for an exception object. -/
def PyExceptionObj.strForm (e : PyExceptionObj) : String :=
  match e.args with
  | [] => ""
  | [a] => a
  | more => String.intercalate ", " more

/-- The exception object produced by
`raise InvalidQoSProfileException(message)` (rclpy/qos.py lines 50-54),
following CPython semantics: `BaseException.__new__` stores
`args = (message,)`; the overriding `__init__` then evaluates
`Exception(self, f'Invalid QoSProfile: ...')`, which creates a fresh,
immediately discarded exception object and never touches `self` — in
particular it does not call `super().__init__`, so `self.args` stays as
`__new__` left it. -/
def raiseInvalidQoSProfileException (message : String) : PyExceptionObj :=
  { args := [message] }

/-- Modelled from the spec: the verdict type `_rclpy.QoSCompatibility`
returned by the native backend (not in the Python source) — one of
OK, WARNING, ERROR. -/
inductive QoSCompatibility where
  | OK
  | WARNING
  | ERROR
deriving DecidableEq, Repr

/-- Severity rank of a verdict (OK < WARNING < ERROR). -/
def QoSCompatibility.sev : QoSCompatibility → Nat
  | .OK => 0
  | .WARNING => 1
  | .ERROR => 2

/-- Keep the worse of two verdicts (the spec's "final verdict = ERROR if any
policy yields ERROR; else WARNING if any policy yields WARNING; else OK"). -/
def QoSCompatibility.worst (a b : QoSCompatibility) : QoSCompatibility :=
  if a.sev < b.sev then b else a

/-- Modelled from the spec: a reliability value whose effective policy is
resolved only at discovery time (SYSTEM_DEFAULT, UNKNOWN or
BEST_AVAILABLE). -/
def ReliabilityPolicy.indeterminate (r : ReliabilityPolicy) : Bool :=
  r = .SYSTEM_DEFAULT ∨ r = .UNKNOWN ∨ r = .BEST_AVAILABLE

/-- Modelled from the spec: a durability value whose effective policy is
resolved only at discovery time. -/
def DurabilityPolicy.indeterminate (d : DurabilityPolicy) : Bool :=
  d = .SYSTEM_DEFAULT ∨ d = .UNKNOWN ∨ d = .BEST_AVAILABLE

/-- Modelled from the spec: a liveliness kind whose effective policy is
resolved only at discovery time. -/
def LivelinessPolicy.indeterminate (l : LivelinessPolicy) : Bool :=
  l = .SYSTEM_DEFAULT ∨ l = .UNKNOWN ∨ l = .BEST_AVAILABLE

/-- Modelled from the spec (§4.4 reliability rule of the native comparison,
which lives in the `_rclpy` backend and not in the Python source): either
side indeterminate → WARNING; publisher BEST_EFFORT with subscriber
RELIABLE → ERROR; every remaining concrete pairing (publisher RELIABLE with
subscriber BEST_EFFORT, or equal concrete values) → OK.  The message names
the RELIABILITY policy kind exactly when the verdict is not OK. -/
def reliabilityCompat (pub sub : ReliabilityPolicy) :
    QoSCompatibility × List String :=
  if pub.indeterminate || sub.indeterminate then
    (.WARNING, ["RELIABILITY compatibility cannot be determined"])
  else if pub = .BEST_EFFORT ∧ sub = .RELIABLE then
    (.ERROR, ["RELIABILITY: best effort publisher cannot satisfy reliable subscription"])
  else
    (.OK, [])

/-- Modelled from the spec (§4.4 durability rule): either side
indeterminate → WARNING; publisher VOLATILE with subscriber
TRANSIENT_LOCAL → ERROR; every remaining concrete pairing → OK. -/
def durabilityCompat (pub sub : DurabilityPolicy) :
    QoSCompatibility × List String :=
  if pub.indeterminate || sub.indeterminate then
    (.WARNING, ["DURABILITY compatibility cannot be determined"])
  else if pub = .VOLATILE ∧ sub = .TRANSIENT_LOCAL then
    (.ERROR, ["DURABILITY: volatile publisher cannot supply history to transient local subscription"])
  else
    (.OK, [])

/-- Modelled from the spec (§4.4 deadline rule): a zero duration is the
"no deadline" default sentinel, so either side zero → WARNING; otherwise
publisher deadline within the subscriber requirement → OK, longer →
ERROR. -/
def deadlineCompat (pub sub : Duration) : QoSCompatibility × List String :=
  if pub.nanoseconds = 0 ∨ sub.nanoseconds = 0 then
    (.WARNING, ["DEADLINE compatibility cannot be determined"])
  else if pub.nanoseconds ≤ sub.nanoseconds then
    (.OK, [])
  else
    (.ERROR, ["DEADLINE: publisher deadline exceeds subscription requirement"])

/-- Modelled from the spec (§4.4 liveliness rule): an indeterminate kind or
a zero (default-sentinel) lease duration on either side → WARNING;
mismatched concrete kinds → ERROR; matching kinds with publisher lease
within the subscriber requirement → OK, longer → ERROR. -/
def livelinessCompat (pubKind : LivelinessPolicy) (pubLease : Duration)
    (subKind : LivelinessPolicy) (subLease : Duration) :
    QoSCompatibility × List String :=
  if pubKind.indeterminate || subKind.indeterminate ||
      decide (pubLease.nanoseconds = 0) || decide (subLease.nanoseconds = 0) then
    (.WARNING, ["LIVELINESS compatibility cannot be determined"])
  else if pubKind ≠ subKind then
    (.ERROR, ["LIVELINESS: publisher and subscription liveliness kinds differ"])
  else if pubLease.nanoseconds ≤ subLease.nanoseconds then
    (.OK, [])
  else
    (.ERROR, ["LIVELINESS: publisher lease duration exceeds subscription requirement"])

/-- Joins the per-policy reason messages into the reason string, each part
terminated by a semicolon and a space. -/
def formatReasons : List String → String
  | [] => ""
  | m :: rest => m ++ "; " ++ formatReasons rest

/-- `pat` occurs as a contiguous substring of `s`. -/
def strMentions (s pat : String) : Prop :=
  ∃ pre post : List Char, s.data = pre ++ pat.data ++ post

/-- `qos_check_compatible(publisher_qos, subscription_qos)` (rclpy/qos.py
lines 520-541).  The Python function defers to the native
`_rclpy.rclpy_qos_check_compatible`, which is not in the Python source, so
the per-policy comparison rules are modelled from the spec (§4.4):
reliability, durability, deadline and liveliness are each compared, the
final verdict is the worst per-policy verdict, and the reason string
aggregates the message of every policy whose verdict is not OK. -/
def qos_check_compatible (publisher_qos subscription_qos : QoSProfile) :
    QoSCompatibility × String :=
  let r := reliabilityCompat publisher_qos.reliability subscription_qos.reliability
  let du := durabilityCompat publisher_qos.durability subscription_qos.durability
  let dl := deadlineCompat publisher_qos.deadline subscription_qos.deadline
  let lv := livelinessCompat publisher_qos.liveliness
    publisher_qos.liveliness_lease_duration subscription_qos.liveliness
    subscription_qos.liveliness_lease_duration
  (((r.1.worst du.1).worst dl.1).worst lv.1,
   formatReasons (r.2 ++ du.2 ++ dl.2 ++ lv.2))

/-- A concrete profile (the fields of the rmw `qos_profile_default`), used
to instantiate witnesses. -/
def sampleProfile : QoSProfile :=
  { history := .KEEP_LAST, depth := 10, reliability := .RELIABLE,
    durability := .VOLATILE, lifespan := ⟨0⟩, deadline := ⟨0⟩,
    liveliness := .SYSTEM_DEFAULT, liveliness_lease_duration := ⟨0⟩,
    avoid_ros_namespace_conventions := false }

/-- `sampleProfile` with depth 5, used to instantiate witnesses. -/
def sampleProfileDepth5 : QoSProfile := { sampleProfile with depth := 5 }

/-- `sampleProfile` with the (invalid, but accepted) depth -1, used in the
counterexample about depth validation. -/
def sampleProfileNegDepth : QoSProfile := { sampleProfile with depth := -1 }

/-- `sampleProfile` with KEEP_ALL history, used to instantiate witnesses. -/
def sampleProfileKeepAll : QoSProfile := { sampleProfile with history := .KEEP_ALL }

/-- `sampleProfile` with BEST_EFFORT reliability, used as a publisher
profile in witnesses. -/
def sampleProfileBestEffort : QoSProfile :=
  { sampleProfile with reliability := .BEST_EFFORT }

theorem string_data_append (a b : String) : (a ++ b).data = a.data ++ b.data := rfl

theorem worst_error_left (b : QoSCompatibility) :
    QoSCompatibility.ERROR.worst b = QoSCompatibility.ERROR := by
  cases b <;> rfl

theorem strMentions_of_head (m rest pat : String)
    (h : ∃ t : List Char, m.data = pat.data ++ t) :
    strMentions (m ++ rest) pat := by
  obtain ⟨t, ht⟩ := h
  exact ⟨[], t ++ rest.data, by
    rw [string_data_append, ht, List.append_assoc, List.nil_append]⟩

/-- C4: two `QoSProfile` values are `__eq__`-equal iff all nine fields
compare equal, and this equality is reflexive and symmetric. -/
theorem qos_profile_eq_iff_nine_fields (p q : QoSProfile) :
    (QoSProfile.pyEq p q = true ↔
      (p.history = q.history ∧ p.depth = q.depth ∧
       p.reliability = q.reliability ∧ p.durability = q.durability ∧
       p.lifespan = q.lifespan ∧ p.deadline = q.deadline ∧
       p.liveliness = q.liveliness ∧
       p.liveliness_lease_duration = q.liveliness_lease_duration ∧
       p.avoid_ros_namespace_conventions = q.avoid_ros_namespace_conventions)) ∧
    QoSProfile.pyEq p p = true ∧
    QoSProfile.pyEq p q = QoSProfile.pyEq q p := by
  refine ⟨by simp [QoSProfile.pyEq, and_assoc], by simp [QoSProfile.pyEq], ?_⟩
  rw [Bool.eq_iff_iff]
  simp [QoSProfile.pyEq, and_assoc]
  constructor
  · rintro ⟨h1, h2, h3, h4, h5, h6, h7, h8, h9⟩
    exact ⟨h1.symm, h2.symm, h3.symm, h4.symm, h5.symm, h6.symm, h7.symm,
      h8.symm, h9.symm⟩
  · rintro ⟨h1, h2, h3, h4, h5, h6, h7, h8, h9⟩
    exact ⟨h1.symm, h2.symm, h3.symm, h4.symm, h5.symm, h6.symm, h7.symm,
      h8.symm, h9.symm⟩

/-- C9: when `history` is omitted but `depth` is supplied, construction
succeeds with the history silently defaulted to KEEP_LAST. -/
theorem qos_history_omitted_defaults_keep_last
    (d : QoSDefaultDict) (dep : Int) (rel dur : Option Int)
    (ls dl : Option Duration) (lv : Option Int) (lld : Option Duration)
    (av : Option Bool) (p : QoSProfile) (w : List String)
    (h : constructQoSProfile d none (some dep) rel dur ls dl lv lld av =
      .ok (p, w)) :
    p.history = HistoryPolicy.KEEP_LAST := by
  simp only [constructQoSProfile, Option.getD_none, Option.getD_some,
    HistoryPolicy.ofInt] at h
  norm_num at h
  split at h
  · simp at h
  · split at h
    · simp only [Except.ok.injEq, Prod.mk.injEq] at h
      rw [← h.1]
    · simp at h

/-- C9 witness at a concrete input. -/
theorem qos_history_omitted_defaults_keep_last_witness :
    sampleProfileDepth5.history = HistoryPolicy.KEEP_LAST :=
  qos_history_omitted_defaults_keep_last sampleDefaultDict 5 none none none
    none none none none sampleProfileDepth5 [] (by rfl)

/-- C10 counterexample: at the concrete raise site of the
missing-history-and-depth error, the raised exception's `args` is not empty
(CPython's `BaseException.__new__` already stored the message) and its
string form is exactly the diagnostic text passed at the raise site. -/
theorem invalid_qos_exception_message_counterexample :
    (raiseInvalidQoSProfileException
        "History and/or depth settings are required.").args ≠ [] ∧
    (raiseInvalidQoSProfileException
        "History and/or depth settings are required.").strForm =
      "History and/or depth settings are required." := by
  constructor
  · simp [raiseInvalidQoSProfileException]
  · rfl

/-- C10 amended: every `InvalidQoSProfileException` raised by `QoSProfile`
construction carries the raw raise-site message as its single argument
(stored by `BaseException.__new__`), and its string form is that raw
message; what the broken `__init__` loses is only the intended
`Invalid QoSProfile: ` prefix, because the prefixed exception it builds is
discarded without initializing the base class. -/
theorem invalid_qos_exception_carries_raw_message
    (d : QoSDefaultDict) (hist dep rel dur : Option Int)
    (ls dl : Option Duration) (lv : Option Int) (lld : Option Duration)
    (av : Option Bool) (msg : String)
    (_h : constructQoSProfile d hist dep rel dur ls dl lv lld av =
      .error (.invalidProfile msg)) :
    (raiseInvalidQoSProfileException msg).args = [msg] ∧
    (raiseInvalidQoSProfileException msg).strForm = msg ∧
    (raiseInvalidQoSProfileException msg).strForm ≠
      "Invalid QoSProfile: " ++ msg := by
  refine ⟨rfl, rfl, ?_⟩
  intro hEq
  have hmsg : msg = "Invalid QoSProfile: " ++ msg := hEq
  have hlen := congrArg String.length hmsg
  rw [String.length_append] at hlen
  have h20 : ("Invalid QoSProfile: ").length = 20 := rfl
  rw [h20] at hlen
  omega

/-- C10 amended witness at a concrete input. -/
theorem invalid_qos_exception_carries_raw_message_witness :
    (raiseInvalidQoSProfileException
        "History and/or depth settings are required.").args =
      ["History and/or depth settings are required."] ∧
    (raiseInvalidQoSProfileException
        "History and/or depth settings are required.").strForm =
      "History and/or depth settings are required." ∧
    (raiseInvalidQoSProfileException
        "History and/or depth settings are required.").strForm ≠
      "Invalid QoSProfile: " ++ "History and/or depth settings are required." :=
  invalid_qos_exception_carries_raw_message sampleDefaultDict none none none
    none none none none none none
    "History and/or depth settings are required." (by rfl)

/-- C6 counterexample: constructing a profile with `depth = -1` (outside the
claimed non-negative domain) raises nothing — the negative value is stored
in the profile. -/
theorem qos_profile_negative_depth_stored :
    (constructQoSProfile sampleDefaultDict (some 1) (some (-1)) none none
        none none none none none).toOption.map (fun pw => pw.1.depth) =
      some (-1) ∧ (-1 : Int) < 0 := by
  exact ⟨rfl, by norm_num⟩

/-- C6 amended: the `depth` setter (and the constructor's depth argument)
validates only that the value is an integer; any integer, including a
negative one, is stored without an exception, so the stored depth need not
be non-negative. -/
theorem qos_profile_depth_unvalidated (p : QoSProfile) (v : Int) :
    ((p.setDepth v).1).depth = v ∧
    ∀ (d : QoSDefaultDict) (hist rel dur : Option Int)
      (ls dl : Option Duration) (lv : Option Int) (lld : Option Duration)
      (av : Option Bool) (q : QoSProfile) (w : List String),
      constructQoSProfile d hist (some v) rel dur ls dl lv lld av =
        .ok (q, w) → q.depth = v := by
  refine ⟨rfl, ?_⟩
  intro d hist rel dur ls dl lv lld av q w h
  simp only [constructQoSProfile, Option.getD_some] at h
  split at h
  · simp at h
  · split at h
    · simp at h
    · split at h
      · simp at h
      · split at h
        · simp only [Except.ok.injEq, Prod.mk.injEq] at h
          rw [← h.1]
        · simp at h

/-- C6 amended witness at a concrete input. -/
theorem qos_profile_depth_unvalidated_witness :
    ((sampleProfile.setDepth (-1)).1).depth = -1 ∧
    sampleProfileNegDepth.depth = -1 :=
  ⟨(qos_profile_depth_unvalidated sampleProfile (-1)).1,
   (qos_profile_depth_unvalidated sampleProfile (-1)).2 sampleDefaultDict
     (some 1) none none none none none none none sampleProfileNegDepth []
     (by rfl)⟩

/-- C3: in every successful construction, each omitted field among
reliability, durability, lifespan, deadline, liveliness,
liveliness_lease_duration and avoid_ros_namespace_conventions takes the
corresponding entry of the default dictionary `d` the construction was run
against (for the enum fields, through the enum-constructor conversion), for
every dictionary `d` — the defaults track the single registered dictionary,
not per-field constants. -/
theorem qos_profile_omitted_fields_track_default_dict
    (d : QoSDefaultDict) (hist dep rel dur : Option Int)
    (ls dl : Option Duration) (lv : Option Int) (lld : Option Duration)
    (av : Option Bool) (p : QoSProfile) (w : List String)
    (h : constructQoSProfile d hist dep rel dur ls dl lv lld av =
      .ok (p, w)) :
    (rel = none → ReliabilityPolicy.ofInt d.reliability = some p.reliability) ∧
    (dur = none → DurabilityPolicy.ofInt d.durability = some p.durability) ∧
    (ls = none → p.lifespan = d.lifespan) ∧
    (dl = none → p.deadline = d.deadline) ∧
    (lv = none → LivelinessPolicy.ofInt d.liveliness = some p.liveliness) ∧
    (lld = none → p.liveliness_lease_duration = d.liveliness_lease_duration) ∧
    (av = none → p.avoid_ros_namespace_conventions =
      d.avoid_ros_namespace_conventions) := by
  simp only [constructQoSProfile] at h
  split at h
  · simp at h
  · split at h
    · simp at h
    · split at h
      · simp at h
      · split at h
        · rename_i rpol dupol lpol hrel hdur hlv
          simp only [Except.ok.injEq, Prod.mk.injEq] at h
          obtain ⟨hp, _⟩ := h
          subst hp
          refine ⟨?_, ?_, ?_, ?_, ?_, ?_, ?_⟩ <;> intro hnone <;> subst hnone
          · simpa using hrel.symm ▸ rfl
          · simpa using hdur.symm ▸ rfl
          · rfl
          · rfl
          · simpa using hlv.symm ▸ rfl
          · rfl
          · rfl
        · simp at h

/-- C3 witness at a concrete input. -/
theorem qos_profile_omitted_fields_track_default_dict_witness :
    ReliabilityPolicy.ofInt sampleDefaultDict.reliability =
      some sampleProfileDepth5.reliability :=
  (qos_profile_omitted_fields_track_default_dict sampleDefaultDict (some 1)
    (some 5) none none none none none none none sampleProfileDepth5 []
    (by rfl)).1 rfl

/-- C7: a KEEP_LAST construction with depth 0 succeeds — the profile holds
depth 0 — and issues the zero-depth warning; and this is the sole warning
case: a successful construction warns exactly when the profile ends with
KEEP_LAST history and depth 0, and the `depth` setter (the only
warning-issuing setter) warns exactly when the history is KEEP_LAST and the
assigned value is 0, while still storing the value. -/
theorem qos_zero_depth_keep_last_sole_warning :
    (∀ (d : QoSDefaultDict) (rel dur : Option Int) (ls dl : Option Duration)
      (lv : Option Int) (lld : Option Duration) (av : Option Bool),
      optInRange ReliabilityPolicy.ofInt rel →
      optInRange DurabilityPolicy.ofInt dur →
      optInRange LivelinessPolicy.ofInt lv →
      d.valid →
      (constructQoSProfile d (some 1) (some 0) rel dur ls dl lv lld
          av).toOption.map (fun pw => (pw.1.history, pw.1.depth, pw.2)) =
        some (HistoryPolicy.KEEP_LAST, 0, [zeroDepthWarning])) ∧
    (∀ (d : QoSDefaultDict) (hist dep rel dur : Option Int)
      (ls dl : Option Duration) (lv : Option Int) (lld : Option Duration)
      (av : Option Bool) (p : QoSProfile) (w : List String),
      constructQoSProfile d hist dep rel dur ls dl lv lld av = .ok (p, w) →
      ((w ≠ [] ↔ (p.history = HistoryPolicy.KEEP_LAST ∧ p.depth = 0)) ∧
       (p.history = HistoryPolicy.KEEP_LAST ∧ p.depth = 0 →
         w = [zeroDepthWarning]))) ∧
    (∀ (q : QoSProfile) (v : Int),
      ((q.setDepth v).2 ≠ [] ↔
        (q.history = HistoryPolicy.KEEP_LAST ∧ v = 0)) ∧
      (q.history = HistoryPolicy.KEEP_LAST ∧ v = 0 →
        (q.setDepth v).2 = [zeroDepthWarning]) ∧
      ((q.setDepth v).1).depth = v) := by
  refine ⟨?_, ?_, ?_⟩
  · intro d rel dur ls dl lv lld av hr hd hl hv
    obtain ⟨hv1, hv2, hv3⟩ := hv
    have hrel : (ReliabilityPolicy.ofInt (rel.getD d.reliability)).isSome = true := by
      cases rel with
      | none => simpa using hv1
      | some v => simpa using hr v rfl
    have hdur : (DurabilityPolicy.ofInt (dur.getD d.durability)).isSome = true := by
      cases dur with
      | none => simpa using hv2
      | some v => simpa using hd v rfl
    have hlv : (LivelinessPolicy.ofInt (lv.getD d.liveliness)).isSome = true := by
      cases lv with
      | none => simpa using hv3
      | some v => simpa using hl v rfl
    obtain ⟨rpol, hrpol⟩ := Option.isSome_iff_exists.mp hrel
    obtain ⟨dupol, hdupol⟩ := Option.isSome_iff_exists.mp hdur
    obtain ⟨lpol, hlpol⟩ := Option.isSome_iff_exists.mp hlv
    simp only [constructQoSProfile, Option.getD_some, HistoryPolicy.ofInt,
      hrpol, hdupol, hlpol]
    simp
    exact ⟨_, _, rfl, rfl, rfl, rfl⟩
  · intro d hist dep rel dur ls dl lv lld av p w h
    simp only [constructQoSProfile] at h
    split at h
    · simp at h
    · split at h
      · simp at h
      · rename_i hpol hhpol
        split at h
        · simp at h
        · split at h
          · rename_i rpol dupol lpol hrel hdur hlv
            simp only [Except.ok.injEq, Prod.mk.injEq] at h
            obtain ⟨hp, hw⟩ := h
            subst hp
            subst hw
            by_cases hc : hpol = HistoryPolicy.KEEP_LAST ∧ dep.getD d.depth = 0
            · simp [hc, zeroDepthWarning]
            · simp only [if_neg hc]
              simpa using hc
          · simp at h
  · intro q v
    refine ⟨?_, ?_, rfl⟩
    · by_cases hc : q.history = HistoryPolicy.KEEP_LAST ∧ v = 0
      · simp [QoSProfile.setDepth, hc, zeroDepthWarning]
      · simp only [QoSProfile.setDepth, if_neg hc]
        simpa using hc
    · intro hc
      simp [QoSProfile.setDepth, hc]

theorem history_value_of_ofInt {v : Int} {m : HistoryPolicy}
    (h : HistoryPolicy.ofInt v = some m) : m.value = v := by
  unfold HistoryPolicy.ofInt at h
  split_ifs at h <;> simp only [Option.some.injEq] at h <;> subst h <;>
    simp_all [HistoryPolicy.value]

theorem history_ofInt_none_iff (v : Int) :
    HistoryPolicy.ofInt v = none ↔ ∀ m : HistoryPolicy, m.value ≠ v := by
  constructor
  · intro hn m hm
    rw [← hm] at hn
    cases m <;> simp [HistoryPolicy.ofInt, HistoryPolicy.value] at hn
  · intro hall
    unfold HistoryPolicy.ofInt
    split_ifs with h0 h1 h2 h3
    · exact absurd h0.symm (hall .SYSTEM_DEFAULT)
    · exact absurd h1.symm (hall .KEEP_LAST)
    · exact absurd h2.symm (hall .KEEP_ALL)
    · exact absurd h3.symm (hall .UNKNOWN)
    · rfl

theorem reliability_value_of_ofInt {v : Int} {m : ReliabilityPolicy}
    (h : ReliabilityPolicy.ofInt v = some m) : m.value = v := by
  unfold ReliabilityPolicy.ofInt at h
  split_ifs at h <;> simp only [Option.some.injEq] at h <;> subst h <;>
    simp_all [ReliabilityPolicy.value]

theorem reliability_ofInt_none_iff (v : Int) :
    ReliabilityPolicy.ofInt v = none ↔ ∀ m : ReliabilityPolicy, m.value ≠ v := by
  constructor
  · intro hn m hm
    rw [← hm] at hn
    cases m <;> simp [ReliabilityPolicy.ofInt, ReliabilityPolicy.value] at hn
  · intro hall
    unfold ReliabilityPolicy.ofInt
    split_ifs with h0 h1 h2 h3 h4
    · exact absurd h0.symm (hall .SYSTEM_DEFAULT)
    · exact absurd h1.symm (hall .RELIABLE)
    · exact absurd h2.symm (hall .BEST_EFFORT)
    · exact absurd h3.symm (hall .UNKNOWN)
    · exact absurd h4.symm (hall .BEST_AVAILABLE)
    · rfl

theorem durability_value_of_ofInt {v : Int} {m : DurabilityPolicy}
    (h : DurabilityPolicy.ofInt v = some m) : m.value = v := by
  unfold DurabilityPolicy.ofInt at h
  split_ifs at h <;> simp only [Option.some.injEq] at h <;> subst h <;>
    simp_all [DurabilityPolicy.value]

theorem durability_ofInt_none_iff (v : Int) :
    DurabilityPolicy.ofInt v = none ↔ ∀ m : DurabilityPolicy, m.value ≠ v := by
  constructor
  · intro hn m hm
    rw [← hm] at hn
    cases m <;> simp [DurabilityPolicy.ofInt, DurabilityPolicy.value] at hn
  · intro hall
    unfold DurabilityPolicy.ofInt
    split_ifs with h0 h1 h2 h3 h4
    · exact absurd h0.symm (hall .SYSTEM_DEFAULT)
    · exact absurd h1.symm (hall .TRANSIENT_LOCAL)
    · exact absurd h2.symm (hall .VOLATILE)
    · exact absurd h3.symm (hall .UNKNOWN)
    · exact absurd h4.symm (hall .BEST_AVAILABLE)
    · rfl

theorem liveliness_value_of_ofInt {v : Int} {m : LivelinessPolicy}
    (h : LivelinessPolicy.ofInt v = some m) : m.value = v := by
  unfold LivelinessPolicy.ofInt at h
  split_ifs at h <;> simp only [Option.some.injEq] at h <;> subst h <;>
    simp_all [LivelinessPolicy.value]

theorem liveliness_ofInt_none_iff (v : Int) :
    LivelinessPolicy.ofInt v = none ↔ ∀ m : LivelinessPolicy, m.value ≠ v := by
  constructor
  · intro hn m hm
    rw [← hm] at hn
    cases m <;> simp [LivelinessPolicy.ofInt, LivelinessPolicy.value] at hn
  · intro hall
    unfold LivelinessPolicy.ofInt
    split_ifs with h0 h1 h2 h3 h4
    · exact absurd h0.symm (hall .SYSTEM_DEFAULT)
    · exact absurd h1.symm (hall .AUTOMATIC)
    · exact absurd h2.symm (hall .MANUAL_BY_TOPIC)
    · exact absurd h3.symm (hall .UNKNOWN)
    · exact absurd h4.symm (hall .BEST_AVAILABLE)
    · rfl

/-- C5: the enumeration-typed fields only ever hold defined members.  Every
stored field value corresponds to a defined member of its enumeration
(`ofInt` of its value returns it); a plain int passed to an enum setter is
stored only through the enum conversion, whose result is the defined member
with exactly that value; and a setter call fails (Python `ValueError`)
precisely when no member of the enumeration has the given value — a raw
unchecked integer is never stored. -/
theorem qos_profile_enum_fields_validated (p p' : QoSProfile) (v : Int) :
    (HistoryPolicy.ofInt p.history.value = some p.history ∧
     ReliabilityPolicy.ofInt p.reliability.value = some p.reliability ∧
     DurabilityPolicy.ofInt p.durability.value = some p.durability ∧
     LivelinessPolicy.ofInt p.liveliness.value = some p.liveliness) ∧
    (p.setHistory v = some p' → p'.history.value = v) ∧
    (p.setHistory v = none ↔ ∀ m : HistoryPolicy, m.value ≠ v) ∧
    (p.setReliability v = some p' → p'.reliability.value = v) ∧
    (p.setReliability v = none ↔ ∀ m : ReliabilityPolicy, m.value ≠ v) ∧
    (p.setDurability v = some p' → p'.durability.value = v) ∧
    (p.setDurability v = none ↔ ∀ m : DurabilityPolicy, m.value ≠ v) ∧
    (p.setLiveliness v = some p' → p'.liveliness.value = v) ∧
    (p.setLiveliness v = none ↔ ∀ m : LivelinessPolicy, m.value ≠ v) := by
  refine ⟨⟨?_, ?_, ?_, ?_⟩, ?_, ?_, ?_, ?_, ?_, ?_, ?_, ?_⟩
  · cases hp : p.history <;> rfl
  · cases hp : p.reliability <;> rfl
  · cases hp : p.durability <;> rfl
  · cases hp : p.liveliness <;> rfl
  · intro h
    unfold QoSProfile.setHistory at h
    cases hv : HistoryPolicy.ofInt v with
    | none => rw [hv] at h; simp at h
    | some m =>
      rw [hv] at h
      simp only [Option.map_some', Option.some.injEq] at h
      rw [← h]
      exact history_value_of_ofInt hv
  · rw [QoSProfile.setHistory, Option.map_eq_none']
    exact history_ofInt_none_iff v
  · intro h
    unfold QoSProfile.setReliability at h
    cases hv : ReliabilityPolicy.ofInt v with
    | none => rw [hv] at h; simp at h
    | some m =>
      rw [hv] at h
      simp only [Option.map_some', Option.some.injEq] at h
      rw [← h]
      exact reliability_value_of_ofInt hv
  · rw [QoSProfile.setReliability, Option.map_eq_none']
    exact reliability_ofInt_none_iff v
  · intro h
    unfold QoSProfile.setDurability at h
    cases hv : DurabilityPolicy.ofInt v with
    | none => rw [hv] at h; simp at h
    | some m =>
      rw [hv] at h
      simp only [Option.map_some', Option.some.injEq] at h
      rw [← h]
      exact durability_value_of_ofInt hv
  · rw [QoSProfile.setDurability, Option.map_eq_none']
    exact durability_ofInt_none_iff v
  · intro h
    unfold QoSProfile.setLiveliness at h
    cases hv : LivelinessPolicy.ofInt v with
    | none => rw [hv] at h; simp at h
    | some m =>
      rw [hv] at h
      simp only [Option.map_some', Option.some.injEq] at h
      rw [← h]
      exact liveliness_value_of_ofInt hv
  · rw [QoSProfile.setLiveliness, Option.map_eq_none']
    exact liveliness_ofInt_none_iff v

/-- C2: under in-range argument values and a well-formed default dictionary,
construction raises `InvalidQoSProfileException` exactly when (a) history
and depth are both omitted, or (b) the history argument resolves to
KEEP_LAST while depth is omitted; every other combination constructs a
profile without raising. -/
theorem qos_profile_construction_raises_iff
    (d : QoSDefaultDict) (hist dep rel dur : Option Int)
    (ls dl : Option Duration) (lv : Option Int) (lld : Option Duration)
    (av : Option Bool)
    (hh : optInRange HistoryPolicy.ofInt hist)
    (hr : optInRange ReliabilityPolicy.ofInt rel)
    (hd : optInRange DurabilityPolicy.ofInt dur)
    (hl : optInRange LivelinessPolicy.ofInt lv)
    (hv : d.valid) :
    ((∃ msg, constructQoSProfile d hist dep rel dur ls dl lv lld av =
        .error (.invalidProfile msg)) ↔
      ((hist = none ∧ dep = none) ∨
       (HistoryPolicy.ofInt (hist.getD 1) = some HistoryPolicy.KEEP_LAST ∧
        dep = none))) ∧
    (¬((hist = none ∧ dep = none) ∨
       (HistoryPolicy.ofInt (hist.getD 1) = some HistoryPolicy.KEEP_LAST ∧
        dep = none)) →
      ∃ p w,
        constructQoSProfile d hist dep rel dur ls dl lv lld av = .ok (p, w)) := by
  obtain ⟨hv1, hv2, hv3⟩ := hv
  obtain ⟨rpol, hrpol⟩ : ∃ x, ReliabilityPolicy.ofInt (rel.getD d.reliability) = some x := by
    cases rel with
    | none => exact Option.isSome_iff_exists.mp (by simpa using hv1)
    | some v => exact Option.isSome_iff_exists.mp (by simpa using hr v rfl)
  obtain ⟨dupol, hdupol⟩ : ∃ x, DurabilityPolicy.ofInt (dur.getD d.durability) = some x := by
    cases dur with
    | none => exact Option.isSome_iff_exists.mp (by simpa using hv2)
    | some v => exact Option.isSome_iff_exists.mp (by simpa using hd v rfl)
  obtain ⟨lpol, hlpol⟩ : ∃ x, LivelinessPolicy.ofInt (lv.getD d.liveliness) = some x := by
    cases lv with
    | none => exact Option.isSome_iff_exists.mp (by simpa using hv3)
    | some v => exact Option.isSome_iff_exists.mp (by simpa using hl v rfl)
  by_cases hc1 : hist = none ∧ dep = none
  · refine ⟨⟨fun _ => Or.inl hc1, fun _ => ?_⟩, fun hn => absurd (Or.inl hc1) hn⟩
    exact ⟨"History and/or depth settings are required.",
      by simp only [constructQoSProfile, if_pos hc1]⟩
  · obtain ⟨hpol, hhpol⟩ : ∃ x, HistoryPolicy.ofInt (hist.getD 1) = some x := by
      cases hist with
      | none => exact ⟨.KEEP_LAST, rfl⟩
      | some v => exact Option.isSome_iff_exists.mp (by simpa using hh v rfl)
    by_cases hc2 : hpol = HistoryPolicy.KEEP_LAST ∧ dep = none
    · have hrhs : HistoryPolicy.ofInt (hist.getD 1) = some HistoryPolicy.KEEP_LAST ∧
          dep = none := ⟨by rw [hhpol, hc2.1], hc2.2⟩
      refine ⟨⟨fun _ => Or.inr hrhs, fun _ => ?_⟩,
        fun hn => absurd (Or.inr hrhs) hn⟩
      exact ⟨"History set to KEEP_LAST without a depth setting.",
        by simp only [constructQoSProfile, if_neg hc1, hhpol, if_pos hc2]⟩
    · have hok : constructQoSProfile d hist dep rel dur ls dl lv lld av =
          .ok ({ history := hpol, depth := dep.getD d.depth,
                 reliability := rpol, durability := dupol,
                 lifespan := ls.getD d.lifespan,
                 deadline := dl.getD d.deadline, liveliness := lpol,
                 liveliness_lease_duration := lld.getD d.liveliness_lease_duration,
                 avoid_ros_namespace_conventions := av.getD d.avoid_ros_namespace_conventions },
               if hpol = HistoryPolicy.KEEP_LAST ∧ dep.getD d.depth = 0 then
                 [zeroDepthWarning] else []) := by
        simp only [constructQoSProfile, if_neg hc1, hhpol, if_neg hc2,
          hrpol, hdupol, hlpol]
      refine ⟨⟨?_, ?_⟩, fun _ => ⟨_, _, hok⟩⟩
      · rintro ⟨msg, hmsg⟩
        rw [hok] at hmsg
        exact absurd hmsg (by simp)
      · rintro (h1 | h2)
        · exact absurd h1 hc1
        · rw [hhpol] at h2
          exact absurd ⟨by simpa using h2.1, h2.2⟩ hc2

/-- C8: for every member of each policy enumeration whose name does not
start with the reserved legacy prefix, the lower-cased name appears in
`short_keys()`, `get_from_short_key` maps it back to the member's value,
and the lookup is case-insensitive (any string upper-casing to the member
name also maps to the member's value). -/
theorem policy_enum_short_key_round_trip :
    (∀ m : HistoryPolicy, startsWithRMW m.pyName = false →
      lowerStr m.pyName ∈ HistoryPolicy.short_keys ∧
      HistoryPolicy.get_from_short_key (lowerStr m.pyName) = some m.value ∧
      ∀ s : String, upperStr s = m.pyName →
        HistoryPolicy.get_from_short_key s = some m.value) ∧
    (∀ m : ReliabilityPolicy, startsWithRMW m.pyName = false →
      lowerStr m.pyName ∈ ReliabilityPolicy.short_keys ∧
      ReliabilityPolicy.get_from_short_key (lowerStr m.pyName) = some m.value ∧
      ∀ s : String, upperStr s = m.pyName →
        ReliabilityPolicy.get_from_short_key s = some m.value) ∧
    (∀ m : DurabilityPolicy, startsWithRMW m.pyName = false →
      lowerStr m.pyName ∈ DurabilityPolicy.short_keys ∧
      DurabilityPolicy.get_from_short_key (lowerStr m.pyName) = some m.value ∧
      ∀ s : String, upperStr s = m.pyName →
        DurabilityPolicy.get_from_short_key s = some m.value) ∧
    (∀ m : LivelinessPolicy, startsWithRMW m.pyName = false →
      lowerStr m.pyName ∈ LivelinessPolicy.short_keys ∧
      LivelinessPolicy.get_from_short_key (lowerStr m.pyName) = some m.value ∧
      ∀ s : String, upperStr s = m.pyName →
        LivelinessPolicy.get_from_short_key s = some m.value) := by
  refine ⟨?_, ?_, ?_, ?_⟩
  · intro m _
    cases m <;>
      exact ⟨by decide, by decide, fun s hs => by
        rw [HistoryPolicy.get_from_short_key, hs]; decide⟩
  · intro m _
    cases m <;>
      exact ⟨by decide, by decide, fun s hs => by
        rw [ReliabilityPolicy.get_from_short_key, hs]; decide⟩
  · intro m _
    cases m <;>
      exact ⟨by decide, by decide, fun s hs => by
        rw [DurabilityPolicy.get_from_short_key, hs]; decide⟩
  · intro m _
    cases m <;>
      exact ⟨by decide, by decide, fun s hs => by
        rw [LivelinessPolicy.get_from_short_key, hs]; decide⟩

/-- C8 witness at a concrete input. -/
theorem policy_enum_short_key_round_trip_witness :
    startsWithRMW HistoryPolicy.KEEP_LAST.pyName = false ∧
    upperStr "keep_last" = HistoryPolicy.KEEP_LAST.pyName ∧
    HistoryPolicy.get_from_short_key "keep_last" =
      some HistoryPolicy.KEEP_LAST.value :=
  ⟨by decide, by decide,
   (policy_enum_short_key_round_trip.1 HistoryPolicy.KEEP_LAST
       (by decide)).2.2 "keep_last" (by decide)⟩

/-- C1: for every pair of profiles with publisher reliability BEST_EFFORT
and subscriber reliability RELIABLE, `qos_check_compatible` returns the
ERROR verdict together with a reason string mentioning RELIABILITY. -/
theorem qos_check_compatible_best_effort_reliable_error
    (pub sub : QoSProfile)
    (hp : pub.reliability = ReliabilityPolicy.BEST_EFFORT)
    (hs : sub.reliability = ReliabilityPolicy.RELIABLE) :
    (qos_check_compatible pub sub).1 = QoSCompatibility.ERROR ∧
    strMentions (qos_check_compatible pub sub).2 "RELIABILITY" := by
  have hrel : reliabilityCompat pub.reliability sub.reliability =
      (QoSCompatibility.ERROR,
       ["RELIABILITY: best effort publisher cannot satisfy reliable subscription"]) := by
    rw [hp, hs]; decide
  constructor
  · simp only [qos_check_compatible, hrel]
    rw [worst_error_left, worst_error_left, worst_error_left]
  · simp only [qos_check_compatible, hrel, List.singleton_append,
      List.cons_append, formatReasons]
    exact strMentions_of_head _ _ _
      ⟨(": best effort publisher cannot satisfy reliable subscription; ").data,
       rfl⟩

/-- C1 witness at a concrete input. -/
theorem qos_check_compatible_best_effort_reliable_error_witness :
    sampleProfileBestEffort.reliability = ReliabilityPolicy.BEST_EFFORT ∧
    sampleProfile.reliability = ReliabilityPolicy.RELIABLE ∧
    ((qos_check_compatible sampleProfileBestEffort sampleProfile).1 =
        QoSCompatibility.ERROR ∧
      strMentions (qos_check_compatible sampleProfileBestEffort
        sampleProfile).2 "RELIABILITY") :=
  ⟨rfl, rfl,
   qos_check_compatible_best_effort_reliable_error sampleProfileBestEffort
     sampleProfile rfl rfl⟩

/-- C2 witness at a concrete input: both arguments omitted falls in the
raising class. -/
theorem qos_profile_construction_raises_iff_witness :
    ((none : Option Int) = none ∧ (none : Option Int) = none) ∨
      (HistoryPolicy.ofInt ((none : Option Int).getD 1) =
        some HistoryPolicy.KEEP_LAST ∧ (none : Option Int) = none) :=
  (qos_profile_construction_raises_iff sampleDefaultDict none none none none
      none none none none none (fun _ hv => nomatch hv)
      (fun _ hv => nomatch hv) (fun _ hv => nomatch hv)
      (fun _ hv => nomatch hv) ⟨rfl, rfl, rfl⟩).1.mp
    ⟨"History and/or depth settings are required.", rfl⟩

/-- C5 witness at a concrete input. -/
theorem qos_profile_enum_fields_validated_witness :
    sampleProfileKeepAll.history.value = 2 :=
  ((qos_profile_enum_fields_validated sampleProfile sampleProfileKeepAll
      2).2.1) (by rfl)

/-- C7 witness at a concrete input. -/
theorem qos_zero_depth_keep_last_sole_warning_witness :
    (constructQoSProfile sampleDefaultDict (some 1) (some 0) none none none
        none none none none).toOption.map
      (fun pw => (pw.1.history, pw.1.depth, pw.2)) =
      some (HistoryPolicy.KEEP_LAST, 0, [zeroDepthWarning]) ∧
    (sampleProfile.setDepth 0).2 = [zeroDepthWarning] :=
  ⟨qos_zero_depth_keep_last_sole_warning.1 sampleDefaultDict none none none
     none none none none (fun _ hv => nomatch hv) (fun _ hv => nomatch hv)
     (fun _ hv => nomatch hv) ⟨rfl, rfl, rfl⟩,
   (qos_zero_depth_keep_last_sole_warning.2.2 sampleProfile 0).2.1
     ⟨rfl, rfl⟩⟩
